import Mathlib

/-!
Verification of the order lifecycle and webhook reconciliation core of the
ecommerce-stripe backend (shop/models.py, shop/views.py).

Embedding conventions:
- Django ORM rows are a list of orders; object save is replacement of the
  first row matched by the lookup predicate.
- JSON dictionary fields read with dict.get are Option values: none models an
  absent key, some v a present key (possibly an empty string). Option.getD
  mirrors dict.get with a default exactly: the default applies only when the
  key is absent.
- Numeric amounts are embedded as exact rationals; the Python built-in int()
  is truncation toward zero.
- Timestamps (timezone.now()) are natural numbers supplied by the caller.
- External collaborators (the Stripe client, the mailer) are parameters: a
  verified webhook event is some e when stripe.Webhook.construct_event
  succeeds and none when it raises; the checkout-session call returns
  some session on success and none when it raises StripeError. The email
  notification is a fire-and-forget side effect with no influence on state
  and is not modelled.
-/

namespace Shop

/-- Order status enumeration, from ORDER_STATUS_CHOICES in shop/models.py. -/
inductive OrderStatus where
  | pending
  | paid
  | shipped
  | delivered
  | cancelled
  | refunded
deriving Repr, DecidableEq

/-- Line item record as carried in the items JSON array. Every field is read
with dict.get and a default, so every field is optional. -/
structure LineItem where
  product_id : Option ℕ := none
  name : Option String := none
  price : Option ℚ := none
  quantity : Option ℤ := none
  size : Option String := none
deriving Repr, DecidableEq

/-- Order row, from the Order model in shop/models.py. The created_at and
updated_at audit timestamps are maintained by the framework and carried as
plain data. -/
structure Order where
  order_id : ℕ
  stripe_session_id : Option String := none
  stripe_payment_intent_id : Option String := none
  customer_email : String
  customer_name : String := ""
  customer_phone : String := ""
  shipping_address_line1 : String := ""
  shipping_address_line2 : String := ""
  shipping_city : String := ""
  shipping_postal_code : String := ""
  shipping_country : String := ""
  items : List LineItem := []
  total_amount : ℚ := 0
  currency : String := "EUR"
  status : OrderStatus := OrderStatus.pending
  created_at : ℕ := 0
  paid_at : Option ℕ := none
deriving Repr, DecidableEq

/-- The persistent order store. -/
abbrev OrderStore := List Order

/-- Lookup Order.objects.get(order_id=oid); none models Order.DoesNotExist. -/
def findOrder (oid : ℕ) (store : OrderStore) : Option Order :=
  store.find? (fun o => o.order_id == oid)

/-- Lookup Order.objects.get(stripe_session_id=sid); none models DoesNotExist. -/
def findBySession (sid : String) (store : OrderStore) : Option Order :=
  store.find? (fun o => o.stripe_session_id == some sid)

/-- Persist a mutated order: replace the first row matched by p with f of it. -/
def updateOrder (p : Order → Bool) (f : Order → Order) : OrderStore → OrderStore
  | [] => []
  | o :: rest => if p o then f o :: rest else o :: updateOrder p f rest

/-- Python truthiness of an optional string: None and the empty string are
falsy. -/
def truthyStr : Option String → Bool
  | none => false
  | some s => s != ""

/-- Event kinds the webhook handler dispatches on. -/
inductive EventType where
  | sessionCompleted
  | sessionExpired
  | other
deriving Repr, DecidableEq

/-- Address dictionary inside shipping_details of a completed-session event.
none models an absent key. -/
structure ShippingAddress where
  line1 : Option String := none
  line2 : Option String := none
  city : Option String := none
  postal_code : Option String := none
  country : Option String := none
deriving Repr, DecidableEq

/-- The shipping_details dictionary of a completed-session event. -/
structure ShippingDetails where
  name : Option String := none
  address : ShippingAddress := {}
deriving Repr, DecidableEq

/-- Verified Stripe webhook event, restricted to the fields the handler
reads. order_id is session.metadata.order_id; shipping_details is none when
the key is absent or the dictionary is empty (both are falsy in Python). -/
structure WebhookEvent where
  type : EventType
  order_id : Option ℕ := none
  payment_intent : Option String := none
  shipping_details : Option ShippingDetails := none
deriving Repr, DecidableEq

/-- Effect of a checkout.session.completed event on the matched order
(shop/views.py lines 147-162): set status to paid, store the payment
reference, stamp paid_at with the current time, and overlay name and address
fields; each dict.get(key, prior) keeps the prior value exactly when the key
is absent. -/
def applyCompleted (e : WebhookEvent) (now : ℕ) (o : Order) : Order :=
  let o1 : Order :=
    { o with
      status := OrderStatus.paid
      stripe_payment_intent_id := e.payment_intent
      paid_at := some now }
  match e.shipping_details with
  | none => o1
  | some sh =>
      { o1 with
        customer_name := sh.name.getD o.customer_name
        shipping_address_line1 := sh.address.line1.getD o.shipping_address_line1
        shipping_address_line2 := sh.address.line2.getD o.shipping_address_line2
        shipping_city := sh.address.city.getD o.shipping_city
        shipping_postal_code := sh.address.postal_code.getD o.shipping_postal_code
        shipping_country := sh.address.country.getD o.shipping_country }

/-- Effect of a checkout.session.expired event on the matched order
(shop/views.py lines 174-176). -/
def applyExpired (o : Order) : Order :=
  { o with status := OrderStatus.cancelled }

/-- JSON response: HTTP status code plus flat body fields. -/
structure JsonResp where
  status : ℕ
  body : List (String × String)
deriving Repr, DecidableEq

/-- Response when signature verification fails (shop/views.py line 138). -/
def invalidSignatureResp : JsonResp := ⟨400, [("error", "Invalid signature")]⟩

/-- Acknowledgment response of the webhook handler (shop/views.py line 180). -/
def webhookSuccessResp : JsonResp := ⟨200, [("status", "success")]⟩

/-- Webhook handler stripe_webhook (shop/views.py lines 122-180). The
verified argument is the outcome of stripe.Webhook.construct_event: none
when verification raises. Returns the HTTP response and the store after the
call. -/
def stripe_webhook (verified : Option WebhookEvent) (now : ℕ) (store : OrderStore) :
    JsonResp × OrderStore :=
  match verified with
  | none => (invalidSignatureResp, store)
  | some e =>
    match e.type with
    | EventType.sessionCompleted =>
      match e.order_id with
      | none => (webhookSuccessResp, store)
      | some oid =>
        match findOrder oid store with
        | none => (webhookSuccessResp, store)
        | some _ =>
            (webhookSuccessResp,
             updateOrder (fun o => o.order_id == oid) (applyCompleted e now) store)
    | EventType.sessionExpired =>
      match e.order_id with
      | none => (webhookSuccessResp, store)
      | some oid =>
        match findOrder oid store with
        | none => (webhookSuccessResp, store)
        | some _ =>
            (webhookSuccessResp,
             updateOrder (fun o => o.order_id == oid) applyExpired store)
    | EventType.other => (webhookSuccessResp, store)

/-- Checkout request body (shop/views.py lines 40-46): fields read with
dict.get, so optional. -/
structure CheckoutRequest where
  items : List LineItem := []
  customer_email : Option String := none
  customer_name : Option String := none
  customer_phone : Option String := none
  shipping_address : ShippingAddress := {}
deriving Repr, DecidableEq

/-- Coercion float(item.get(price-key, 0)) with numbers embedded exactly. -/
def itemPrice (it : LineItem) : ℚ := it.price.getD 0

/-- Coercion int(item.get(quantity-key, 1)). -/
def itemQuantity (it : LineItem) : ℤ := it.quantity.getD 1

/-- Default item.get(name-key, Product). -/
def itemName (it : LineItem) : String := it.name.getD "Product"

/-- Default item.get(size-key, empty). -/
def itemSize (it : LineItem) : String := it.size.getD ""

/-- Python int() on a rational value: truncation toward zero. -/
def pyIntTrunc (q : ℚ) : ℤ := if 0 ≤ q then ⌊q⌋ else ⌈q⌉

/-- Line item as sent to the Stripe session-creation call (shop/views.py
lines 63-70): currency eur, name with optional size suffix, unit_amount
int(price * 100). -/
structure StripeLineItem where
  currency : String
  product_name : String
  unit_amount : ℤ
  quantity : ℤ
deriving Repr, DecidableEq

/-- Translation of one request item to the Stripe line item (shop/views.py
lines 56-70). -/
def buildLineItem (it : LineItem) : StripeLineItem :=
  { currency := "eur"
    product_name :=
      if itemSize it != "" then itemName it ++ " (" ++ itemSize it ++ ")" else itemName it
    unit_amount := pyIntTrunc (itemPrice it * 100)
    quantity := itemQuantity it }

/-- The full line-item list passed to the provider. -/
def stripeLineItems (items : List LineItem) : List StripeLineItem :=
  items.map buildLineItem

/-- Contribution of one item to the running total (shop/views.py line 71). -/
def itemContribution (it : LineItem) : ℚ :=
  itemPrice it * (itemQuantity it : ℚ)

/-- Total accumulated over the items (shop/views.py lines 55-71). -/
def computeTotal (items : List LineItem) : ℚ :=
  (items.map itemContribution).sum

/-- Pending order row created before the provider call (shop/views.py lines
74-87). -/
def mkOrder (req : CheckoutRequest) (nextId : ℕ) : Order :=
  { order_id := nextId
    customer_email := req.customer_email.getD ""
    customer_name := req.customer_name.getD ""
    customer_phone := req.customer_phone.getD ""
    shipping_address_line1 := req.shipping_address.line1.getD ""
    shipping_address_line2 := req.shipping_address.line2.getD ""
    shipping_city := req.shipping_address.city.getD ""
    shipping_postal_code := req.shipping_address.postal_code.getD ""
    shipping_country := req.shipping_address.country.getD ""
    items := req.items
    total_amount := computeTotal req.items
    currency := "EUR"
    status := OrderStatus.pending
    stripe_session_id := none
    paid_at := none }

/-- Session handle returned by stripe.checkout.Session.create. -/
structure StripeSession where
  id : String
  url : String
deriving Repr, DecidableEq

/-- Result of the checkout-creation endpoint, mirroring the three
JsonResponse shapes of create_checkout_session. -/
inductive CheckoutResult where
  | ok (checkout_url : String) (session_id : String) (order_id : ℕ)
  | error (status : ℕ) (msg : String)
deriving Repr, DecidableEq

/-- Checkout handler create_checkout_session (shop/views.py lines 24-119).
nextId is the auto-assigned primary key of a created row; providerResp is
the outcome of the Stripe call, none when it raises StripeError (in which
case the already-created pending order stays in the store without a session
reference). -/
def create_checkout_session (req : CheckoutRequest) (nextId : ℕ)
    (providerResp : Option StripeSession) (store : OrderStore) :
    CheckoutResult × OrderStore :=
  if req.items.isEmpty then
    (CheckoutResult.error 400 "No items provided", store)
  else if !truthyStr req.customer_email then
    (CheckoutResult.error 400 "Customer email is required", store)
  else
    let order := mkOrder req nextId
    match providerResp with
    | none => (CheckoutResult.error 400 "provider error", order :: store)
    | some sess =>
        (CheckoutResult.ok sess.url sess.id nextId,
         { order with stripe_session_id := some sess.id } :: store)

/-- Query parameters of the status endpoint. -/
structure StatusQuery where
  session_id : Option String := none
  order_id : Option ℕ := none
deriving Repr, DecidableEq

/-- Response body of a successful status lookup (shop/views.py lines
228-238). -/
structure OrderProjection where
  order_id : ℕ
  status : OrderStatus
  customer_email : String
  customer_name : String
  total_amount : ℚ
  currency : String
  items : List LineItem
  created_at : ℕ
  paid_at : Option ℕ
deriving Repr, DecidableEq

/-- Projection of a stored order to the response body. -/
def projectOrder (o : Order) : OrderProjection :=
  { order_id := o.order_id
    status := o.status
    customer_email := o.customer_email
    customer_name := o.customer_name
    total_amount := o.total_amount
    currency := o.currency
    items := o.items
    created_at := o.created_at
    paid_at := o.paid_at }

/-- Result of the status endpoint. -/
inductive StatusResult where
  | ok (p : OrderProjection)
  | badRequest (msg : String)
  | notFound (msg : String)
deriving Repr, DecidableEq

/-- Status handler get_order_status (shop/views.py lines 210-240). Reads are
side-effect free, so only the result is returned. -/
def get_order_status (q : StatusQuery) (store : OrderStore) : StatusResult :=
  if !truthyStr q.session_id && q.order_id.isNone then
    StatusResult.badRequest "session_id or order_id required"
  else if truthyStr q.session_id then
    match q.session_id with
    | some sid =>
      match findBySession sid store with
      | some o => StatusResult.ok (projectOrder o)
      | none => StatusResult.notFound "Order not found"
    | none => StatusResult.notFound "Order not found"
  else
    match q.order_id with
    | some oid =>
      match findOrder oid store with
      | some o => StatusResult.ok (projectOrder o)
      | none => StatusResult.notFound "Order not found"
    | none => StatusResult.notFound "Order not found"

/-! Concrete instances used to evaluate the handlers on explicit inputs. -/

/-- A freshly created order, still pending. -/
def pendingOrder : Order :=
  { order_id := 1, customer_email := "a@b.com" }

/-- An order that has already been paid. -/
def paidOrder : Order :=
  { order_id := 1, customer_email := "a@b.com", status := OrderStatus.paid,
    paid_at := some 3 }

/-- An order whose customer_name was captured at checkout time. -/
def namedOrder : Order :=
  { order_id := 1, customer_email := "a@b.com", customer_name := "John Doe",
    shipping_city := "Paris" }

/-- A completed-session event referencing order 1, without shipping details. -/
def completedEvent : WebhookEvent :=
  { type := EventType.sessionCompleted, order_id := some 1 }

/-- An expired-session event referencing order 1. -/
def expiredEvent : WebhookEvent :=
  { type := EventType.sessionExpired, order_id := some 1 }

/-- Shipping details whose name key is present but bound to the empty
string, and whose address keys are all absent. -/
def emptyNameShipping : ShippingDetails := { name := some "" }

/-- A completed-session event supplying an empty name value. -/
def emptyNameEvent : WebhookEvent :=
  { type := EventType.sessionCompleted, order_id := some 1,
    shipping_details := some emptyNameShipping }

/-- The worked example of the spec: one Rug at 250.00, quantity 2. -/
def rugRequest : CheckoutRequest :=
  { items := [{ name := some "Rug", price := some 250, quantity := some 2 }],
    customer_email := some "a@b.com" }

/-- A request whose first item omits price and whose second omits quantity. -/
def defaultedRequest : CheckoutRequest :=
  { items := [{ name := some "A", quantity := some 3 },
              { name := some "B", price := some 5 }],
    customer_email := some "a@b.com" }

/-- A request with no items at all. -/
def emptyItemsRequest : CheckoutRequest :=
  { items := [], customer_email := some "a@b.com" }

/-- A line item priced at 10.999, on which truncation and rounding of the
minor-unit amount disagree. -/
def item10999 : LineItem :=
  { name := some "X", price := some (10999 / 1000 : ℚ), quantity := some 1 }

/-- A line item priced at 10.99, the example of the spec. -/
def item1099 : LineItem :=
  { name := some "X", price := some (1099 / 100 : ℚ), quantity := some 1 }

/-- A query by internal order id 1 only. -/
def orderIdQuery : StatusQuery := { order_id := some 1 }

/-- A completed-session event whose metadata references an unknown order. -/
def unknownOrderEvent : WebhookEvent :=
  { type := EventType.sessionCompleted, order_id := some 99 }

/-! Helper lemmas about the store operations. -/

/-- Membership in an updated store: each row is an original row or the image
under f of a matched original row. -/
theorem mem_updateOrder {p : Order → Bool} {f : Order → Order} {l : OrderStore}
    {o : Order} (h : o ∈ updateOrder p f l) :
    o ∈ l ∨ ∃ x, x ∈ l ∧ p x = true ∧ o = f x := by
  induction l with
  | nil => simp [updateOrder] at h
  | cons a as ih =>
    by_cases hp : p a
    · rw [updateOrder, if_pos hp] at h
      rcases List.mem_cons.mp h with h1 | h1
      · exact Or.inr ⟨a, List.mem_cons_self a as, hp, h1⟩
      · exact Or.inl (List.mem_cons_of_mem a h1)
    · rw [updateOrder, if_neg hp] at h
      rcases List.mem_cons.mp h with h1 | h1
      · exact Or.inl (h1 ▸ List.mem_cons_self a as)
      · rcases ih h1 with h2 | ⟨x, hx, hpx, hfx⟩
        · exact Or.inl (List.mem_cons_of_mem a h2)
        · exact Or.inr ⟨x, List.mem_cons_of_mem a hx, hpx, hfx⟩

/-- Updating twice with the same predicate composes the updates, provided
the first update preserves the predicate. -/
theorem updateOrder_updateOrder (p : Order → Bool) (f g : Order → Order)
    (hp : ∀ o, p (g o) = p o) (l : OrderStore) :
    updateOrder p f (updateOrder p g l) = updateOrder p (fun o => f (g o)) l := by
  induction l with
  | nil => rfl
  | cons a as ih =>
    by_cases hpa : p a
    · rw [updateOrder, if_pos hpa, updateOrder, if_pos (by rw [hp a]; exact hpa),
        updateOrder, if_pos hpa]
    · rw [updateOrder, if_neg hpa, updateOrder, if_neg hpa, updateOrder,
        if_neg hpa, ih]

/-- Mapping a projection over an updated store is insensitive to the choice
of update when the projection does not distinguish the two updates on
matched rows. -/
theorem map_updateOrder_congr {α : Type} (g : Order → α) (p : Order → Bool)
    (f f' : Order → Order) (h : ∀ o, p o = true → g (f o) = g (f' o))
    (l : OrderStore) :
    (updateOrder p f l).map g = (updateOrder p f' l).map g := by
  induction l with
  | nil => rfl
  | cons a as ih =>
    by_cases hpa : p a
    · rw [updateOrder, if_pos hpa, updateOrder, if_pos hpa, List.map_cons,
        List.map_cons, h a hpa]
    · rw [updateOrder, if_neg hpa, updateOrder, if_neg hpa, List.map_cons,
        List.map_cons, ih]

/-- Mapping a projection preserved by the update over an updated store gives
the same list as over the original store. -/
theorem map_updateOrder_of_preserve {α : Type} (g : Order → α) (p : Order → Bool)
    (f : Order → Order) (h : ∀ o, g (f o) = g o) (l : OrderStore) :
    (updateOrder p f l).map g = l.map g := by
  induction l with
  | nil => rfl
  | cons a as ih =>
    by_cases hpa : p a
    · rw [updateOrder, if_pos hpa, List.map_cons, List.map_cons, h a]
    · rw [updateOrder, if_neg hpa, List.map_cons, List.map_cons, ih]

/-- Looking an order up after an id-preserving update of the same id finds
the updated row. -/
theorem findOrder_updateOrder (oid : ℕ) (f : Order → Order)
    (hf : ∀ o, (f o).order_id = o.order_id) (l : OrderStore) :
    findOrder oid (updateOrder (fun o => o.order_id == oid) f l)
      = (findOrder oid l).map f := by
  induction l with
  | nil => rfl
  | cons a as ih =>
    by_cases hpa : a.order_id == oid
    · rw [updateOrder, if_pos hpa, findOrder,
        List.find?_cons_of_pos (p := fun o : Order => o.order_id == oid) _
          (by simpa [hf a] using hpa),
        findOrder, List.find?_cons_of_pos (p := fun o : Order => o.order_id == oid) _ hpa]
      rfl
    · rw [updateOrder, if_neg hpa, findOrder,
        List.find?_cons_of_neg (p := fun o : Order => o.order_id == oid) _ hpa,
        findOrder, List.find?_cons_of_neg (p := fun o : Order => o.order_id == oid) _ hpa]
      exact ih

/-- The completed-session effect always stamps status paid. -/
theorem applyCompleted_status (e : WebhookEvent) (now : ℕ) (o : Order) :
    (applyCompleted e now o).status = OrderStatus.paid := by
  unfold applyCompleted
  cases e.shipping_details <;> rfl

/-- The completed-session effect always stamps paid_at with the current
time. -/
theorem applyCompleted_paid_at (e : WebhookEvent) (now : ℕ) (o : Order) :
    (applyCompleted e now o).paid_at = some now := by
  unfold applyCompleted
  cases e.shipping_details <;> rfl

/-- The completed-session effect never touches the primary key. -/
theorem applyCompleted_order_id (e : WebhookEvent) (now : ℕ) (o : Order) :
    (applyCompleted e now o).order_id = o.order_id := by
  unfold applyCompleted
  cases e.shipping_details <;> rfl

/-- Reduction of the webhook handler on a completed-session event whose
order lookup succeeds. -/
theorem stripe_webhook_completed_snd (e : WebhookEvent)
    (he : e.type = EventType.sessionCompleted) (oid : ℕ)
    (hoid : e.order_id = some oid) (now : ℕ) (store : OrderStore) (x : Order)
    (hfind : findOrder oid store = some x) :
    (stripe_webhook (some e) now store).2
      = updateOrder (fun o => o.order_id == oid) (applyCompleted e now) store := by
  simp only [stripe_webhook, he, hoid, hfind]

/-- Reduction of the webhook handler on a completed-session event whose
order lookup fails. -/
theorem stripe_webhook_completed_snd_notfound (e : WebhookEvent)
    (he : e.type = EventType.sessionCompleted) (oid : ℕ)
    (hoid : e.order_id = some oid) (now : ℕ) (store : OrderStore)
    (hfind : findOrder oid store = none) :
    (stripe_webhook (some e) now store).2 = store := by
  simp only [stripe_webhook, he, hoid, hfind]

/-- Reduction of the webhook handler on an expired-session event whose
order lookup succeeds. -/
theorem stripe_webhook_expired_snd (ex : WebhookEvent)
    (hex : ex.type = EventType.sessionExpired) (oid : ℕ)
    (ho : ex.order_id = some oid) (now : ℕ) (s : OrderStore) (x : Order)
    (hf : findOrder oid s = some x) :
    (stripe_webhook (some ex) now s).2
      = updateOrder (fun o => o.order_id == oid) applyExpired s := by
  simp only [stripe_webhook, hex, ho, hf]

/-- Reduction of the webhook handler on an expired-session event whose
order lookup fails. -/
theorem stripe_webhook_expired_snd_notfound (ex : WebhookEvent)
    (hex : ex.type = EventType.sessionExpired) (oid : ℕ)
    (ho : ex.order_id = some oid) (now : ℕ) (s : OrderStore)
    (hf : findOrder oid s = none) :
    (stripe_webhook (some ex) now s).2 = s := by
  simp only [stripe_webhook, hex, ho, hf]

/-- Reduction of the webhook handler on an expired-session event carrying no
order id. -/
theorem stripe_webhook_expired_snd_nooid (ex : WebhookEvent)
    (hex : ex.type = EventType.sessionExpired)
    (ho : ex.order_id = none) (now : ℕ) (s : OrderStore) :
    (stripe_webhook (some ex) now s).2 = s := by
  simp only [stripe_webhook, hex, ho]

/-- Expired-session events never touch paid_at of any order. -/
theorem stripe_webhook_expired_preserves_paid_at (ex : WebhookEvent)
    (hex : ex.type = EventType.sessionExpired) (now : ℕ) (s : OrderStore) :
    (stripe_webhook (some ex) now s).2.map Order.paid_at = s.map Order.paid_at := by
  cases ho : ex.order_id with
  | none => rw [stripe_webhook_expired_snd_nooid ex hex ho now s]
  | some oid =>
    cases hf : findOrder oid s with
    | none => rw [stripe_webhook_expired_snd_notfound ex hex oid ho now s hf]
    | some x =>
      rw [stripe_webhook_expired_snd ex hex oid ho now s x hf]
      exact map_updateOrder_of_preserve Order.paid_at _ applyExpired (fun o => rfl) s

/-! Claim theorems. -/

/-- C1 counterexample: the claim that no event moves an order out of the
paid state fails. A session-expired event delivered for an order whose
status is already paid sets the status to cancelled: the handler checks no
precondition on the current status. -/
theorem C1_counterexample :
    paidOrder.status = OrderStatus.paid ∧
    (stripe_webhook (some expiredEvent) 7 [paidOrder]).2.map Order.status
      = [OrderStatus.cancelled] :=
  ⟨rfl, rfl⟩

/-- C1 (amended): applying one verified webhook event leaves every order
either unchanged, or with status paid when the event is a completed-session
event, or with status cancelled when it is an expired-session event — with
no precondition on the previous status, so paid orders are re-stamped paid
by duplicate completed events and demoted to cancelled by expired events.
The reconciler never assigns shipped, delivered or refunded. -/
theorem C1_amended (e : WebhookEvent) (now : ℕ) (store : OrderStore) (o : Order)
    (h : o ∈ (stripe_webhook (some e) now store).2) :
    o ∈ store ∨
      (e.type = EventType.sessionCompleted ∧ o.status = OrderStatus.paid) ∨
      (e.type = EventType.sessionExpired ∧ o.status = OrderStatus.cancelled) := by
  cases ht : e.type with
  | sessionCompleted =>
    simp only [stripe_webhook, ht] at h
    cases hoid : e.order_id with
    | none => simp only [hoid] at h; exact Or.inl h
    | some oid =>
      simp only [hoid] at h
      cases hfind : findOrder oid store with
      | none => simp only [hfind] at h; exact Or.inl h
      | some x =>
        simp only [hfind] at h
        rcases mem_updateOrder h with h1 | ⟨y, hy, hpy, rfl⟩
        · exact Or.inl h1
        · exact Or.inr (Or.inl ⟨rfl, applyCompleted_status e now y⟩)
  | sessionExpired =>
    simp only [stripe_webhook, ht] at h
    cases hoid : e.order_id with
    | none => simp only [hoid] at h; exact Or.inl h
    | some oid =>
      simp only [hoid] at h
      cases hfind : findOrder oid store with
      | none => simp only [hfind] at h; exact Or.inl h
      | some x =>
        simp only [hfind] at h
        rcases mem_updateOrder h with h1 | ⟨y, hy, hpy, rfl⟩
        · exact Or.inl h1
        · exact Or.inr (Or.inr ⟨rfl, rfl⟩)
  | other =>
    simp only [stripe_webhook, ht] at h
    exact Or.inl h

/-- C1 witness: the amended theorem applied to the expired-session event on
a store holding one paid order, at the row the update produced. -/
theorem C1_amended_witness :
    applyExpired paidOrder ∈ [paidOrder] ∨
      (expiredEvent.type = EventType.sessionCompleted ∧
        (applyExpired paidOrder).status = OrderStatus.paid) ∨
      (expiredEvent.type = EventType.sessionExpired ∧
        (applyExpired paidOrder).status = OrderStatus.cancelled) :=
  C1_amended expiredEvent 7 [paidOrder] (applyExpired paidOrder) (by decide)

/-- C2: a webhook request failing signature verification is rejected with a
400 response and the order store is returned unchanged. -/
theorem C2_invalid_signature_rejected (now : ℕ) (store : OrderStore) :
    stripe_webhook none now store = (invalidSignatureResp, store) ∧
    invalidSignatureResp.status = 400 :=
  ⟨rfl, rfl⟩

/-- C9: a verified event whose metadata carries no order id, or whose order
id matches no stored order, is acknowledged with the 200 success response
and mutates no order. -/
theorem C9_unmatched_event_acknowledged (e : WebhookEvent) (now : ℕ)
    (store : OrderStore)
    (h : e.order_id = none ∨ ∀ oid, e.order_id = some oid → findOrder oid store = none) :
    stripe_webhook (some e) now store = (webhookSuccessResp, store) ∧
    webhookSuccessResp.status = 200 := by
  refine ⟨?_, rfl⟩
  cases ht : e.type with
  | sessionCompleted =>
    simp only [stripe_webhook, ht]
    cases hoid : e.order_id with
    | none => rfl
    | some oid =>
      rcases h with h | h
      · rw [hoid] at h; cases h
      · simp only [h oid hoid]
  | sessionExpired =>
    simp only [stripe_webhook, ht]
    cases hoid : e.order_id with
    | none => rfl
    | some oid =>
      rcases h with h | h
      · rw [hoid] at h; cases h
      · simp only [h oid hoid]
  | other => simp only [stripe_webhook, ht]

/-- C3 counterexample: paid_at is not set exactly once. A duplicate
completed-session delivery at a later time overwrites paid_at with the new
current time. -/
theorem C3_counterexample :
    (stripe_webhook (some completedEvent) 3 [pendingOrder]).2.map Order.paid_at
      = [some 3] ∧
    (stripe_webhook (some completedEvent) 7
        (stripe_webhook (some completedEvent) 3 [pendingOrder]).2).2.map Order.paid_at
      = [some 7] :=
  ⟨rfl, rfl⟩

/-- C3 (amended): every completed-session delivery stamps paid_at with its
own delivery time, so a duplicate delivery overwrites paid_at with the later
time; paid_at is never cleared (expired-session events do not touch it); and
the end state of status is the same whether the event is delivered once or
twice. -/
theorem C3_amended (e : WebhookEvent) (he : e.type = EventType.sessionCompleted)
    (oid : ℕ) (hoid : e.order_id = some oid) (now1 now2 : ℕ) (store : OrderStore) :
    ((stripe_webhook (some e) now2
        (stripe_webhook (some e) now1 store).2).2.map Order.status
      = (stripe_webhook (some e) now1 store).2.map Order.status) ∧
    (∀ o, findOrder oid store = some o →
      (findOrder oid (stripe_webhook (some e) now2
          (stripe_webhook (some e) now1 store).2).2).map Order.paid_at
        = some (some now2)) ∧
    (∀ ex : WebhookEvent, ex.type = EventType.sessionExpired → ∀ now3 : ℕ,
      ∀ s : OrderStore,
        (stripe_webhook (some ex) now3 s).2.map Order.paid_at
          = s.map Order.paid_at) := by
  have hid1 : ∀ o, (applyCompleted e now1 o).order_id = o.order_id :=
    applyCompleted_order_id e now1
  have hid2 : ∀ o, (applyCompleted e now2 o).order_id = o.order_id :=
    applyCompleted_order_id e now2
  refine ⟨?_, ?_, fun ex hex now3 s => stripe_webhook_expired_preserves_paid_at ex hex now3 s⟩
  · cases hfind : findOrder oid store with
    | none =>
      rw [stripe_webhook_completed_snd_notfound e he oid hoid now1 store hfind,
        stripe_webhook_completed_snd_notfound e he oid hoid now2 store hfind]
    | some x =>
      rw [stripe_webhook_completed_snd e he oid hoid now1 store x hfind]
      have hfind1 : findOrder oid
          (updateOrder (fun o => o.order_id == oid) (applyCompleted e now1) store)
          = some (applyCompleted e now1 x) := by
        rw [findOrder_updateOrder oid _ hid1, hfind]; rfl
      rw [stripe_webhook_completed_snd e he oid hoid now2 _ _ hfind1,
        updateOrder_updateOrder _ _ _ (fun o => by simp [hid1 o]) store]
      exact map_updateOrder_congr Order.status _ _ _
        (fun o _ => by rw [applyCompleted_status, applyCompleted_status]) store
  · intro o ho
    rw [stripe_webhook_completed_snd e he oid hoid now1 store o ho]
    have hfind1 : findOrder oid
        (updateOrder (fun o => o.order_id == oid) (applyCompleted e now1) store)
        = some (applyCompleted e now1 o) := by
      rw [findOrder_updateOrder oid _ hid1, ho]; rfl
    rw [stripe_webhook_completed_snd e he oid hoid now2 _ _ hfind1,
      findOrder_updateOrder oid _ hid2, hfind1]
    simp [applyCompleted_paid_at]

/-- C3 witness: the amended theorem applied to the duplicate delivery of the
completed-session event for order 1 at times 3 and then 7, and to an
expired-session event over a paid order. -/
theorem C3_amended_witness :
    ((stripe_webhook (some completedEvent) 7
        (stripe_webhook (some completedEvent) 3 [pendingOrder]).2).2.map Order.status
      = (stripe_webhook (some completedEvent) 3 [pendingOrder]).2.map Order.status) ∧
    ((findOrder 1 (stripe_webhook (some completedEvent) 7
        (stripe_webhook (some completedEvent) 3 [pendingOrder]).2).2).map Order.paid_at
      = some (some 7)) ∧
    ((stripe_webhook (some expiredEvent) 9 [paidOrder]).2.map Order.paid_at
      = [paidOrder].map Order.paid_at) :=
  ⟨(C3_amended completedEvent rfl 1 rfl 3 7 [pendingOrder]).1,
   (C3_amended completedEvent rfl 1 rfl 3 7 [pendingOrder]).2.1 pendingOrder rfl,
   (C3_amended completedEvent rfl 1 rfl 3 7 [pendingOrder]).2.2 expiredEvent rfl 9 [paidOrder]⟩

/-- C4 counterexample: the claim that a field is overwritten only by a
non-empty value fails. An event whose shipping name key is present but bound
to the empty string overwrites the prior customer name with the empty
string. -/
theorem C4_counterexample :
    namedOrder.customer_name = "John Doe" ∧
    (stripe_webhook (some emptyNameEvent) 5 [namedOrder]).2.map Order.customer_name
      = [""] :=
  ⟨rfl, rfl⟩

/-- C4 (amended): in the shipping overlay of a completed-session event, each
name and address field is overwritten exactly when the event supplies the
corresponding key — with whatever value it carries, an empty string
included; the prior value is retained exactly when the key is absent, and
all fields are retained when the shipping_details dictionary is absent or
empty. -/
theorem C4_amended (e : WebhookEvent) (now : ℕ) (o : Order) :
    (e.shipping_details = none →
      ((applyCompleted e now o).customer_name = o.customer_name ∧
       (applyCompleted e now o).shipping_address_line1 = o.shipping_address_line1 ∧
       (applyCompleted e now o).shipping_address_line2 = o.shipping_address_line2 ∧
       (applyCompleted e now o).shipping_city = o.shipping_city ∧
       (applyCompleted e now o).shipping_postal_code = o.shipping_postal_code ∧
       (applyCompleted e now o).shipping_country = o.shipping_country)) ∧
    (∀ sh, e.shipping_details = some sh →
      ((∀ v, sh.name = some v → (applyCompleted e now o).customer_name = v) ∧
       (sh.name = none →
         (applyCompleted e now o).customer_name = o.customer_name) ∧
       (∀ v, sh.address.line1 = some v →
         (applyCompleted e now o).shipping_address_line1 = v) ∧
       (sh.address.line1 = none →
         (applyCompleted e now o).shipping_address_line1 = o.shipping_address_line1) ∧
       (∀ v, sh.address.line2 = some v →
         (applyCompleted e now o).shipping_address_line2 = v) ∧
       (sh.address.line2 = none →
         (applyCompleted e now o).shipping_address_line2 = o.shipping_address_line2) ∧
       (∀ v, sh.address.city = some v →
         (applyCompleted e now o).shipping_city = v) ∧
       (sh.address.city = none →
         (applyCompleted e now o).shipping_city = o.shipping_city) ∧
       (∀ v, sh.address.postal_code = some v →
         (applyCompleted e now o).shipping_postal_code = v) ∧
       (sh.address.postal_code = none →
         (applyCompleted e now o).shipping_postal_code = o.shipping_postal_code) ∧
       (∀ v, sh.address.country = some v →
         (applyCompleted e now o).shipping_country = v) ∧
       (sh.address.country = none →
         (applyCompleted e now o).shipping_country = o.shipping_country))) := by
  constructor
  · intro hsd
    refine ⟨?_, ?_, ?_, ?_, ?_, ?_⟩ <;> simp [applyCompleted, hsd]
  · intro sh hsd
    refine ⟨?_, ?_, ?_, ?_, ?_, ?_, ?_, ?_, ?_, ?_, ?_, ?_⟩
    · intro v hv; simp [applyCompleted, hsd, hv]
    · intro hv; simp [applyCompleted, hsd, hv]
    · intro v hv; simp [applyCompleted, hsd, hv]
    · intro hv; simp [applyCompleted, hsd, hv]
    · intro v hv; simp [applyCompleted, hsd, hv]
    · intro hv; simp [applyCompleted, hsd, hv]
    · intro v hv; simp [applyCompleted, hsd, hv]
    · intro hv; simp [applyCompleted, hsd, hv]
    · intro v hv; simp [applyCompleted, hsd, hv]
    · intro hv; simp [applyCompleted, hsd, hv]
    · intro v hv; simp [applyCompleted, hsd, hv]
    · intro hv; simp [applyCompleted, hsd, hv]

/-- C4 witness: the amended theorem applied to the empty-name event on an
order with a prior name — the present-but-empty name key overwrites, and the
absent city key retains the prior city. -/
theorem C4_amended_witness :
    (applyCompleted emptyNameEvent 5 namedOrder).customer_name = "" ∧
    (applyCompleted emptyNameEvent 5 namedOrder).shipping_city
      = namedOrder.shipping_city := by
  have H := (C4_amended emptyNameEvent 5 namedOrder).2 emptyNameShipping rfl
  exact ⟨H.1 "" rfl, H.2.2.2.2.2.2.2.1 rfl⟩

/-- C9 witness: the theorem applied to a completed-session event referencing
order id 99 over a store holding only order 1. -/
theorem C9_witness :
    stripe_webhook (some unknownOrderEvent) 5 [pendingOrder]
      = (webhookSuccessResp, [pendingOrder]) ∧
    webhookSuccessResp.status = 200 :=
  C9_unmatched_event_acknowledged unknownOrderEvent 5 [pendingOrder]
    (Or.inr (by intro oid hh; injection hh with hh; subst hh; rfl))

/-- C5: checkout creation with an empty item list or an absent customer
email answers one of the two 400 validation errors and leaves the order
store unchanged. -/
theorem C5_validation_rejects (req : CheckoutRequest) (nextId : ℕ)
    (pr : Option StripeSession) (store : OrderStore)
    (h : req.items = [] ∨ req.customer_email = none) :
    ((create_checkout_session req nextId pr store).1
        = CheckoutResult.error 400 "No items provided" ∨
     (create_checkout_session req nextId pr store).1
        = CheckoutResult.error 400 "Customer email is required") ∧
    (create_checkout_session req nextId pr store).2 = store := by
  rcases h with h | h
  · constructor
    · left
      simp [create_checkout_session, h]
    · simp [create_checkout_session, h]
  · by_cases hi : req.items.isEmpty
    · constructor
      · left
        simp [create_checkout_session, hi]
      · simp [create_checkout_session, hi]
    · constructor
      · right
        simp [create_checkout_session, hi, h, truthyStr]
      · simp [create_checkout_session, hi, h, truthyStr]

/-- C5 witness: the theorem applied to the request with an empty item list
over the empty store. -/
theorem C5_witness :
    ((create_checkout_session emptyItemsRequest 1 none []).1
        = CheckoutResult.error 400 "No items provided" ∨
     (create_checkout_session emptyItemsRequest 1 none []).1
        = CheckoutResult.error 400 "Customer email is required") ∧
    (create_checkout_session emptyItemsRequest 1 none []).2 = [] :=
  C5_validation_rejects emptyItemsRequest 1 none [] (Or.inl rfl)

/-- C6: checkout creation on a nonempty list of valid items with a present
customer email and a successful provider call prepends exactly one new order
to the store, with status pending, the auto-assigned id, and total_amount
equal to the sum of price times quantity over the items; the response
carries the session URL of the provider (nonempty whenever the provider URL
is nonempty), the session reference and the order id. -/
theorem C6_checkout_creates_pending_order (req : CheckoutRequest) (nextId : ℕ)
    (sess : StripeSession) (store : OrderStore)
    (hitems : req.items ≠ [])
    (hemail : truthyStr req.customer_email = true)
    (hvalid : ∀ it ∈ req.items, 0 ≤ itemPrice it ∧ 1 ≤ itemQuantity it)
    (hurl : sess.url ≠ "") :
    (create_checkout_session req nextId (some sess) store).1
        = CheckoutResult.ok sess.url sess.id nextId ∧
    sess.url ≠ "" ∧
    ((create_checkout_session req nextId (some sess) store).2.head?).map Order.status
        = some OrderStatus.pending ∧
    ((create_checkout_session req nextId (some sess) store).2.head?).map Order.total_amount
        = some ((req.items.map (fun it => itemPrice it * (itemQuantity it : ℚ))).sum) ∧
    ((create_checkout_session req nextId (some sess) store).2.head?).map Order.order_id
        = some nextId ∧
    (create_checkout_session req nextId (some sess) store).2.tail = store := by
  have hi : req.items.isEmpty = false := by
    simp [List.isEmpty_iff, hitems]
  refine ⟨?_, hurl, ?_, ?_, ?_, ?_⟩
  · simp [create_checkout_session, hi, hemail]
  · simp [create_checkout_session, hi, hemail, mkOrder]
  · simp [create_checkout_session, hi, hemail, mkOrder, computeTotal]
    rfl
  · simp [create_checkout_session, hi, hemail, mkOrder]
  · simp [create_checkout_session, hi, hemail]

/-- C6 witness: the worked example of the spec — one Rug at 250.00 with
quantity 2 — creates a pending order totalling 500.00. -/
theorem C6_witness :
    (create_checkout_session rugRequest 1 (some ⟨"cs_1", "https://s/1"⟩) []).1
        = CheckoutResult.ok "https://s/1" "cs_1" 1 ∧
    ((create_checkout_session rugRequest 1 (some ⟨"cs_1", "https://s/1"⟩) []).2.head?).map Order.status
        = some OrderStatus.pending ∧
    ((create_checkout_session rugRequest 1 (some ⟨"cs_1", "https://s/1"⟩) []).2.head?).map Order.total_amount
        = some 500 := by
  have H := C6_checkout_creates_pending_order rugRequest 1 ⟨"cs_1", "https://s/1"⟩ []
    (by simp [rugRequest]) rfl
    (by
      intro it hit
      simp [rugRequest] at hit
      subst hit
      norm_num [itemPrice, itemQuantity])
    (by decide)
  refine ⟨H.1, H.2.2.1, H.2.2.2.1.trans ?_⟩
  norm_num [rugRequest, itemPrice, itemQuantity]

/-- C7 counterexample: the unit amount is not price times 100 rounded to
integer. For a price of 10.999 the handler sends 1099 (truncation of
1099.9), while rounding would send 1100. -/
theorem C7_counterexample :
    (buildLineItem item10999).unit_amount = 1099 ∧
    round (itemPrice item10999 * 100) = (1100 : ℤ) := by
  have hp : itemPrice item10999 = 10999 / 1000 := rfl
  constructor
  · show pyIntTrunc (itemPrice item10999 * 100) = 1099
    rw [pyIntTrunc, if_pos (by rw [hp]; norm_num), Int.floor_eq_iff, hp]
    norm_num
  · rw [round_eq, Int.floor_eq_iff, hp]
    norm_num

/-- C7 (amended): the unit amount sent for a line item of nonnegative price
is price times 100 truncated toward zero, that is, its floor. -/
theorem C7_amended (it : LineItem) (h : 0 ≤ itemPrice it) :
    (buildLineItem it).unit_amount = ⌊itemPrice it * 100⌋ := by
  have h100 : (0 : ℚ) ≤ itemPrice it * 100 := by positivity
  simp [buildLineItem, pyIntTrunc, h100]

/-- C7 witness: the amended theorem applied to the 10.99 example of the
spec, where truncation and rounding agree and yield 1099. -/
theorem C7_amended_witness :
    (buildLineItem item1099).unit_amount = ⌊itemPrice item1099 * 100⌋ ∧
    (buildLineItem item1099).unit_amount = 1099 := by
  have hp : itemPrice item1099 = 1099 / 100 := rfl
  have H := C7_amended item1099 (by rw [hp]; norm_num)
  refine ⟨H, H.trans ?_⟩
  rw [Int.floor_eq_iff, hp]
  norm_num

/-- C8: the status endpoint queried with exactly one identifier returns
not-found when the identifier resolves to no stored order, and otherwise the
projection of the stored order, whose total_amount, items and status equal
the stored values exactly; the handler performs no store mutation. -/
theorem C8_status_query (q : StatusQuery) (store : OrderStore) :
    (∀ sid, q.session_id = some sid → sid ≠ "" → q.order_id = none →
      ((findBySession sid store = none →
          get_order_status q store = StatusResult.notFound "Order not found") ∧
       (∀ o, findBySession sid store = some o →
          get_order_status q store = StatusResult.ok (projectOrder o) ∧
          (projectOrder o).total_amount = o.total_amount ∧
          (projectOrder o).items = o.items ∧
          (projectOrder o).status = o.status))) ∧
    (∀ oid, q.session_id = none → q.order_id = some oid →
      ((findOrder oid store = none →
          get_order_status q store = StatusResult.notFound "Order not found") ∧
       (∀ o, findOrder oid store = some o →
          get_order_status q store = StatusResult.ok (projectOrder o) ∧
          (projectOrder o).total_amount = o.total_amount ∧
          (projectOrder o).items = o.items ∧
          (projectOrder o).status = o.status))) := by
  constructor
  · intro sid hsid hne hoid
    constructor
    · intro hf
      simp [get_order_status, hsid, truthyStr, hne, hoid, hf]
    · intro o hf
      refine ⟨?_, rfl, rfl, rfl⟩
      simp [get_order_status, hsid, truthyStr, hne, hoid, hf]
  · intro oid hsid hoid
    constructor
    · intro hf
      simp [get_order_status, hsid, hoid, truthyStr, hf]
    · intro o hf
      refine ⟨?_, rfl, rfl, rfl⟩
      simp [get_order_status, hsid, hoid, truthyStr, hf]

/-- C8 witness: the theorem applied to the order-id query over a store
holding the pending order. -/
theorem C8_witness :
    get_order_status orderIdQuery [pendingOrder]
      = StatusResult.ok (projectOrder pendingOrder) ∧
    (projectOrder pendingOrder).total_amount = pendingOrder.total_amount ∧
    (projectOrder pendingOrder).items = pendingOrder.items ∧
    (projectOrder pendingOrder).status = pendingOrder.status :=
  ((C8_status_query orderIdQuery [pendingOrder]).2 1 rfl rfl).2 pendingOrder rfl

/-- C10: validation never inspects the fields of an item, so an item that
omits price or quantity still yields a created pending order; the price
defaults to 0 and the quantity to 1, so the item contributes 0 (respectively
its price) to the total. -/
theorem C10_item_field_defaults (req : CheckoutRequest) (nextId : ℕ)
    (pr : Option StripeSession) (store : OrderStore)
    (hitems : req.items ≠ []) (hemail : truthyStr req.customer_email = true) :
    ((create_checkout_session req nextId pr store).2.head?).map Order.status
        = some OrderStatus.pending ∧
    ((create_checkout_session req nextId pr store).2.head?).map Order.total_amount
        = some ((req.items.map itemContribution).sum) ∧
    (create_checkout_session req nextId pr store).2.tail = store ∧
    (∀ it : LineItem, it.price = none → itemContribution it = 0) ∧
    (∀ it : LineItem, it.quantity = none → itemContribution it = itemPrice it) := by
  have hi : req.items.isEmpty = false := by
    simp [List.isEmpty_iff, hitems]
  refine ⟨?_, ?_, ?_, ?_, ?_⟩
  · cases pr <;> simp [create_checkout_session, hi, hemail, mkOrder]
  · cases pr <;> simp [create_checkout_session, hi, hemail, mkOrder, computeTotal]
  · cases pr <;> simp [create_checkout_session, hi, hemail]
  · intro it hp
    simp [itemContribution, itemPrice, hp]
  · intro it hq
    simp [itemContribution, itemQuantity, hq]

/-- C10 witness: the theorem applied to the request whose first item omits
its price and whose second omits its quantity, with a failing provider
call — the pending order is created regardless. -/
theorem C10_witness :
    ((create_checkout_session defaultedRequest 1 none []).2.head?).map Order.status
        = some OrderStatus.pending ∧
    ((create_checkout_session defaultedRequest 1 none []).2.head?).map Order.total_amount
        = some ((defaultedRequest.items.map itemContribution).sum) ∧
    (create_checkout_session defaultedRequest 1 none []).2.tail = [] := by
  have H := C10_item_field_defaults defaultedRequest 1 none []
    (by simp [defaultedRequest]) rfl
  exact ⟨H.1, H.2.1, H.2.2.1⟩

end Shop
